import Mathlib

/-!
# Verification of the stat-collector bandwidth aggregation core

Shallow embedding of `main.go` of althea-net/stat-collector.

Modelling conventions:
* `time.Time` and `time.Duration` are modelled as `Int` nanoseconds
  (nanoseconds since the Unix epoch for instants), matching Go's
  representation of `Duration` as an `int64` nanosecond count.
* Go `*float64` used as a "maybe" is modelled as `Option ℚ`; the numeric
  values themselves are modelled as exact rationals `ℚ`.
* Network effects are modelled by passing fetch results (or a fetch
  function) explicitly; `log.Fatal` paths become explicit outcome
  constructors.
-/

/-- Embeds `bytesToGb` (main.go lines 64-66): `return bytes / 1000000000`. -/
def bytesToGb (bytes : ℚ) : ℚ :=
  bytes / 1000000000

/-! ## Model of Go `time.ParseDuration`

`main` (line 187) parses `os.Args[1]` with the Go standard library's
`time.ParseDuration`.  The claims need the genuine parseability predicate
(which strings are rejected, and that strings such as "0s" parse to a
zero duration), so we embed the stdlib algorithm.  Arithmetic on the
fractional part is done exactly over `Nat` where Go uses `float64`
(`uint64(float64(f) * (float64(unit) / scale))`); this differs only in
sub-nanosecond rounding of fractional units and affects no claim here. -/

/-- Go `time.unitMap`: nanoseconds per unit suffix. -/
def unitMap (u : List Char) : Option Nat :=
  if u = ['n', 's'] then some 1
  else if u = ['u', 's'] then some 1000
  else if u = ['µ', 's'] then some 1000
  else if u = ['μ', 's'] then some 1000
  else if u = ['m', 's'] then some 1000000
  else if u = ['s'] then some 1000000000
  else if u = ['m'] then some 60000000000
  else if u = ['h'] then some 3600000000000
  else none

/-- Go `leadingInt`: consume leading decimal digits into a `uint64`-bounded
accumulator; `none` on overflow (the checks `x > 1<<63/10` and
`x > 1<<63` are Go's). -/
def leadingIntAux : Nat → List Char → Option (Nat × List Char)
  | x, [] => some (x, [])
  | x, c :: rest =>
    if c.isDigit then
      if x > 2 ^ 63 / 10 then none
      else
        let y := x * 10 + (c.toNat - Char.toNat '0')
        if y > 2 ^ 63 then none
        else leadingIntAux y rest
    else some (x, c :: rest)

def leadingInt (s : List Char) : Option (Nat × List Char) :=
  leadingIntAux 0 s

/-- Go `leadingFraction`: consume digits after the decimal point, tracking
the scale; on overflow further digits are skipped (value kept). -/
def leadingFractionAux : Nat → Nat → Bool → List Char → Nat × Nat × List Char
  | x, scale, _, [] => (x, scale, [])
  | x, scale, overflow, c :: rest =>
    if c.isDigit then
      if overflow then leadingFractionAux x scale overflow rest
      else if x > (2 ^ 63 - 1) / 10 then leadingFractionAux x scale true rest
      else
        let y := x * 10 + (c.toNat - Char.toNat '0')
        if y > 2 ^ 63 then leadingFractionAux x scale true rest
        else leadingFractionAux y (scale * 10) overflow rest
    else (x, scale, c :: rest)

/-- Consume the unit token: the maximal run of characters that are neither
digits nor a decimal point (Go `ParseDuration`'s unit scan). -/
def takeUnit : List Char → List Char × List Char
  | [] => ([], [])
  | c :: rest =>
    if c = '.' || c.isDigit then ([], c :: rest)
    else
      let (u, r) := takeUnit rest
      (c :: u, r)

/-- The main loop of Go `ParseDuration`, one iteration per
`[0-9]*(\.[0-9]*)?unit` group.  `fuel` bounds the recursion; each
iteration consumes at least one character, so `fuel = s.length` suffices. -/
def parseDurLoop : Nat → Nat → List Char → Option Nat
  | _, d, [] => some d
  | 0, _, _ :: _ => none
  | fuel + 1, d, c :: cs =>
    if c = '.' || c.isDigit then
      match leadingInt (c :: cs) with
      | none => none
      | some (v, s₁) =>
        let pre := s₁.length ≠ (c :: cs).length
        let fsr : Nat × Nat × List Char × Bool :=
          match s₁ with
          | '.' :: rest =>
            match leadingFractionAux 0 1 false rest with
            | (f, scale, r) => (f, scale, r, r.length ≠ rest.length)
          | _ => (0, 1, s₁, false)
        match fsr with
        | (f, scale, s₂, post) =>
          if ¬pre ∧ ¬post then none
          else
            match takeUnit s₂ with
            | (u, s₃) =>
              if u = [] then none
              else
                match unitMap u with
                | none => none
                | some unit =>
                  if v > 2 ^ 63 / unit then none
                  else
                    let v₁ := v * unit
                    let v₂ := if f > 0 then v₁ + f * unit / scale else v₁
                    if v₂ > 2 ^ 63 then none
                    else
                      let d₁ := d + v₂
                      if d₁ > 2 ^ 63 then none
                      else parseDurLoop fuel d₁ s₃
    else none

/-- Model of Go `time.ParseDuration` (used at main.go line 187): result in
nanoseconds, `none` on a parse error. -/
def goParseDuration (str : String) : Option Int :=
  let s₀ := str.toList
  let ns : Bool × List Char :=
    match s₀ with
    | '-' :: rest => (true, rest)
    | '+' :: rest => (false, rest)
    | _ => (false, s₀)
  match ns with
  | (neg, s) =>
    if s = ['0'] then some 0
    else if s = [] then none
    else
      match parseDurLoop s.length 0 s with
      | none => none
      | some d =>
        if neg then some (-(d : Int))
        else if d > 2 ^ 63 - 1 then none
        else some (d : Int)

/-! ## Model of the end-date parse

`main` (line 193) runs
`time.Parse("2006-01-2T15:04:05", os.Args[2]+"T00:00:00")`.
Because the appended `"T00:00:00"` always matches the layout's time part
exactly, this succeeds iff `os.Args[2]` is a calendar date `YYYY-MM-D` or
`YYYY-MM-DD` (4-digit year, 2-digit month, 1-or-2-digit day, in-range),
and the result is midnight UTC of that date (the layout carries no zone,
so Go yields UTC). -/

def digitVal (c : Char) : Nat :=
  c.toNat - Char.toNat '0'

def isLeapYear (y : Nat) : Bool :=
  y % 4 = 0 ∧ (y % 100 ≠ 0 ∨ y % 400 = 0)

def daysInMonth (y m : Nat) : Nat :=
  if m = 1 then 31
  else if m = 2 then (if isLeapYear y then 29 else 28)
  else if m = 3 then 31
  else if m = 4 then 30
  else if m = 5 then 31
  else if m = 6 then 30
  else if m = 7 then 31
  else if m = 8 then 31
  else if m = 9 then 30
  else if m = 10 then 31
  else if m = 11 then 30
  else 31

/-- Days since 1970-01-01 of a civil date (proleptic Gregorian), the
standard era-based algorithm also used inside Go's `time` package
arithmetic. -/
def daysFromCivil (y m d : Int) : Int :=
  let y₁ := if m ≤ 2 then y - 1 else y
  let era := (if 0 ≤ y₁ then y₁ else y₁ - 399) / 400
  let yoe := y₁ - era * 400
  let mp := m + (if 2 < m then -3 else 9)
  let doy := (153 * mp + 2) / 5 + d - 1
  let doe := yoe * 365 + yoe / 4 - yoe / 100 + doy
  era * 146097 + doe - 719468

/-- Midnight UTC of a civil date, in nanoseconds since the Unix epoch. -/
def midnightUTC (y m d : Nat) : Int :=
  daysFromCivil (y : Int) (m : Int) (d : Int) * 86400 * 1000000000

def dateFromDigits (y1 y2 y3 y4 m1 m2 : Char) (day : Nat) : Option Int :=
  if y1.isDigit ∧ y2.isDigit ∧ y3.isDigit ∧ y4.isDigit ∧ m1.isDigit ∧ m2.isDigit then
    let y := digitVal y1 * 1000 + digitVal y2 * 100 + digitVal y3 * 10 + digitVal y4
    let m := digitVal m1 * 10 + digitVal m2
    if 1 ≤ m ∧ m ≤ 12 ∧ 1 ≤ day ∧ day ≤ daysInMonth y m then
      some (midnightUTC y m day)
    else none
  else none

/-- Model of `time.Parse("2006-01-2T15:04:05", s ++ "T00:00:00")` as used
at main.go line 193: `none` on a parse error, otherwise midnight UTC of
the date, in nanoseconds since the epoch. -/
def parseEndDate (str : String) : Option Int :=
  match str.toList with
  | [y1, y2, y3, y4, '-', m1, m2, '-', d1, d2] =>
    if d1.isDigit ∧ d2.isDigit then
      dateFromDigits y1 y2 y3 y4 m1 m2 (digitVal d1 * 10 + digitVal d2)
    else none
  | [y1, y2, y3, y4, '-', m1, m2, '-', d1] =>
    if d1.isDigit then dateFromDigits y1 y2 y3 y4 m1 m2 (digitVal d1)
    else none
  | _ => none

/-! ## The time window and `main`'s argument handling -/

/-- The `From`/`To`/`Duration` fields of `Settings` (main.go lines 29-31,
221-223); the spec calls this triple the `TimeWindow`. -/
structure TimeWindow where
  fromTime : Int
  toTime : Int
  duration : Int
deriving DecidableEq, Repr

/-- Outcome of `main`'s argument-handling prefix (main.go lines 185-212):
`panicOOB` models the runtime panic of an out-of-range `os.Args` index,
`usageExit` models `log.Fatal(errString)` (non-zero exit, usage message),
`run w` models falling through to the network phase with window `w`. -/
inductive MainOutcome
  | panicOOB
  | usageExit
  | run (w : TimeWindow)
deriving DecidableEq, Repr

/-- Embeds main.go lines 185-212.  `args` models `os.Args` (element 0 is
the program name), `now` models `time.Now()`.  Note the faithful quirk:
in the three-argument branch, `to, err = time.Parse(...)` OVERWRITES the
`err` of `time.ParseDuration`, and a failed `ParseDuration` has returned
the zero duration, so `duration` falls back to `0` there. -/
def mainEntry (now : Int) (args : List String) : MainOutcome :=
  match args with
  | _ :: durArg :: rest =>
    let durRes := goParseDuration durArg
    let duration := durRes.getD 0
    match rest with
    | [] =>
      if durRes.isNone then .usageExit
      else .run ⟨now - duration, now, duration⟩
    | dateArg :: _ =>
      let dateRes := parseEndDate dateArg
      let toT := dateRes.getD 0
      if dateRes.isNone then .usageExit
      else .run ⟨toT - duration, toT, duration⟩
  | _ => .panicOOB

/-! ## The usage fetch and the aggregation core -/

/-- Outcome of the log-service HTTP exchange consumed by `callGraylog`
(main.go lines 100-121): either the transport failed (`resp, err` with a
non-nil `err`), or a body was read and `json.Unmarshal` produced
`decoded` — `none` when the body is unparseable JSON (Unmarshal error,
`Sum` left at its nil zero value), `some sum` when it decoded
`\x7b"sum": ...\x7d` (after the `"NaN"` → `null` normalization of line 115,
a null/absent sum is `some none`). -/
inductive GraylogOutcome
  | transportError
  | body (decoded : Option (Option ℚ))
deriving DecidableEq

/-- One directional fetch result as seen by the caller. -/
inductive FetchStep
  | fatal
  | value (v : Option ℚ)
deriving DecidableEq

/-- Embeds the sum-extraction tail of `callGraylog` (main.go lines
123-128): a present sum is converted to GB, an absent sum stays `nil`. -/
def callGraylogConvert (sum : Option ℚ) : Option ℚ :=
  match sum with
  | some s => some (bytesToGb s)
  | none => none

/-- Embeds `callGraylog`'s error handling (main.go lines 100-128):
a transport error hits `log.Fatal` (fatal for the run); an Unmarshal
error is only PRINTED (`fmt.Println("error:", err)`, lines 119-121) and
the function continues with `Sum` nil, so it returns `nil` (Absent). -/
def callGraylogRespond : GraylogOutcome → FetchStep
  | .transportError => .fatal
  | .body decoded => .value (callGraylogConvert (decoded.getD none))

/-- Embeds the aggregation body of `getBandwidthSums` (main.go lines
163-182) as a pure function of the two fetched GB values: the
`userIsActive`/`sumTotal` fold over `sumDownloaded` then `sumUploaded`,
returning `(sumUploaded, sumDownloaded, total)`. -/
def getBandwidthSumsCore (sumDownloaded sumUploaded : Option ℚ) :
    Option ℚ × Option ℚ × Option ℚ :=
  let st₀ : Bool × ℚ := (false, 0)
  let st₁ :=
    match sumDownloaded with
    | some v => (true, st₀.2 + v)
    | none => st₀
  let st₂ :=
    match sumUploaded with
    | some v => (true, st₁.2 + v)
    | none => st₁
  let total : Option ℚ := if st₂.1 then some st₂.2 else none
  (sumUploaded, sumDownloaded, total)

/-- Embeds `MeshMember` (main.go lines 37-44). -/
structure MeshMember where
  id : String
  name : String
  wgKey : String
  upstream : List String
deriving DecidableEq

/-- Embeds `getBandwidthSums` (main.go lines 159-183): the two directional
fetches (down first, then up, lines 160-161) followed by the aggregation
fold.  `fetch direction wgKey` abstracts a successful `callGraylog`. -/
def getBandwidthSums (fetch : String → String → Option ℚ) (member : MeshMember) :
    Option ℚ × Option ℚ × Option ℚ :=
  getBandwidthSumsCore (fetch "down" member.wgKey) (fetch "up" member.wgKey)

/-- Code path of one member at the byte level: each fetched byte count is
converted to GB at the fetch boundary (main.go lines 123-128) and the GB
values are then summed (lines 163-182). -/
def fetchAndAggregate (upBytes downBytes : Option ℚ) :
    Option ℚ × Option ℚ × Option ℚ :=
  getBandwidthSumsCore (callGraylogConvert downBytes) (callGraylogConvert upBytes)

/-- Modelled from the spec (§4.3 algorithm, steps 1-6): accumulate the
present BYTE values into `totalBytes` with the same activity fold, then
convert `up`, `down` and the total bytes → GB by one division each. -/
def specUsageAggregate (upBytes downBytes : Option ℚ) :
    Option ℚ × Option ℚ × Option ℚ :=
  let st₀ : Bool × ℚ := (false, 0)
  let st₁ :=
    match downBytes with
    | some v => (true, st₀.2 + v)
    | none => st₀
  let st₂ :=
    match upBytes with
    | some v => (true, st₁.2 + v)
    | none => st₁
  let total : Option ℚ := if st₂.1 then some (bytesToGb st₂.2) else none
  (upBytes.map bytesToGb, downBytes.map bytesToGb, total)

/-! ## The per-member loop and the sink -/

/-- Embeds `BandwidthUsagePeriod` (main.go lines 46-54). -/
structure BandwidthUsagePeriod where
  name : String
  fromTime : Int
  toTime : Int
  duration : Int
  up : Option ℚ
  down : Option ℚ
  total : Option ℚ
deriving DecidableEq

/-- One iteration of `main`'s member loop (main.go lines 242-268): fetch
and aggregate, and build the record to insert when `total != nil`
(`none` models the skipped insert of an inactive member). -/
def processMember (w : TimeWindow) (fetch : String → String → Option ℚ)
    (member : MeshMember) : Option BandwidthUsagePeriod :=
  match getBandwidthSums fetch member with
  | (sumUploaded, sumDownloaded, some t) =>
    some { name := member.name.trim, fromTime := w.fromTime, toTime := w.toTime,
           duration := w.duration, up := sumUploaded, down := sumDownloaded,
           total := some t }
  | (_, _, none) => none

/-- The member loop of `main` (main.go lines 242-269): the sequence of
records inserted into the sink, in roster order. -/
def runMembers (w : TimeWindow) (fetch : String → String → Option ℚ)
    (members : List MeshMember) : List BandwidthUsagePeriod :=
  members.filterMap (processMember w fetch)

/-- A member is active when at least one directional count is present
(spec §4.3 / glossary); used to state persistence counting. -/
def memberActive (fetch : String → String → Option ℚ) (member : MeshMember) : Bool :=
  (fetch "down" member.wgKey).isSome || (fetch "up" member.wgKey).isSome

/-! ## Helper lemmas -/

/-- The member-loop iteration inserts a record exactly when the member is
active. -/
theorem processMember_isSome (w : TimeWindow) (fetch : String → String → Option ℚ)
    (m : MeshMember) : (processMember w fetch m).isSome = memberActive fetch m := by
  cases hd : fetch "down" m.wgKey <;> cases hu : fetch "up" m.wgKey <;>
    simp [processMember, getBandwidthSums, getBandwidthSumsCore, memberActive, hd, hu]

/-- Every record built by the member loop carries the run's window fields. -/
theorem processMember_window (w : TimeWindow) (fetch : String → String → Option ℚ)
    (m : MeshMember) (r : BandwidthUsagePeriod)
    (h : processMember w fetch m = some r) :
    r.fromTime = w.fromTime ∧ r.toTime = w.toTime ∧ r.duration = w.duration := by
  unfold processMember at h
  split at h
  · cases h
    exact ⟨rfl, rfl, rfl⟩
  · cases h

/-! ## Claims -/

/-- C8: unit conversion is exact division of the byte count by 1e9
(decimal gigabytes): for every input `x`, `bytesToGb x = x / 1000000000`,
and in particular `bytesToGb 2500000000 = 2.5`. -/
theorem c8_bytesToGb_exact_division :
    (∀ x : ℚ, bytesToGb x = x / 1000000000) ∧ bytesToGb 2500000000 = 5 / 2 := by
  refine ⟨fun x => rfl, ?_⟩
  norm_num [bytesToGb]

/-- C3: for every pair `(up, down)` of optional byte counts with at least
one present, the aggregator returns `Total = Present` of the sum of the
present values converted to GB, and the returned `Up` and `Down` keep
exactly the presence state of the corresponding input (an absent input is
never coerced to 0). -/
theorem c3_aggregator_total_and_presence (upBytes downBytes : Option ℚ)
    (h : upBytes.isSome ∨ downBytes.isSome) :
    (fetchAndAggregate upBytes downBytes).1 = upBytes.map bytesToGb ∧
    (fetchAndAggregate upBytes downBytes).2.1 = downBytes.map bytesToGb ∧
    (fetchAndAggregate upBytes downBytes).2.2 =
      some ((upBytes.map bytesToGb).getD 0 + (downBytes.map bytesToGb).getD 0) := by
  cases upBytes <;> cases downBytes <;>
    simp [fetchAndAggregate, getBandwidthSumsCore, callGraylogConvert] at h ⊢ <;>
    ring

theorem c3_aggregator_total_and_presence_witness :
    (fetchAndAggregate (some 1000000000) none).1 = (some (1000000000 : ℚ)).map bytesToGb ∧
    (fetchAndAggregate (some 1000000000) none).2.1 = (none : Option ℚ).map bytesToGb ∧
    (fetchAndAggregate (some 1000000000) none).2.2 =
      some (((some (1000000000 : ℚ)).map bytesToGb).getD 0 +
        ((none : Option ℚ).map bytesToGb).getD 0) :=
  c3_aggregator_total_and_presence (some 1000000000) none (Or.inl rfl)

/-- C7: the spec's order of operations (accumulate present byte values
into `totalBytes`, then one division bytes → GB) and the code's order
(convert each fetched byte count to GB at the fetch boundary, then sum)
produce equal `(Up, Down, Total)` triples on every input pair. -/
theorem c7_spec_code_aggregation_equivalent (upBytes downBytes : Option ℚ) :
    specUsageAggregate upBytes downBytes = fetchAndAggregate upBytes downBytes := by
  cases upBytes <;> cases downBytes <;>
    simp [specUsageAggregate, fetchAndAggregate, getBandwidthSumsCore,
      callGraylogConvert, bytesToGb] <;>
    ring

/-- C9: the aggregation step is a pure, deterministic function of its two
optional inputs: the same `(up, down)` pair always yields the same
`(Up, Down, Total)` triple — in particular, processing the same member
twice in one run inserts two identical records.  (Purity is structural in
this embedding; it is faithful because main.go lines 163-182 read no
mutable or global state.) -/
theorem c9_aggregation_deterministic (sumDownloaded sumUploaded : Option ℚ)
    (w : TimeWindow) (fetch : String → String → Option ℚ) (m : MeshMember)
    (r₁ r₂ : BandwidthUsagePeriod)
    (h : runMembers w fetch [m, m] = [r₁, r₂]) :
    getBandwidthSumsCore sumDownloaded sumUploaded =
      getBandwidthSumsCore sumDownloaded sumUploaded ∧ r₁ = r₂ := by
  refine ⟨rfl, ?_⟩
  cases hp : processMember w fetch m <;>
    simp [runMembers, List.filterMap, hp] at h
  exact h.1.symm.trans h.2

theorem c9_aggregation_deterministic_witness :
    getBandwidthSumsCore none none = getBandwidthSumsCore none none ∧
    ({ name := ("b" : String).trim, fromTime := 0, toTime := 0, duration := 0,
       up := some 1, down := some 1, total := some 2 } : BandwidthUsagePeriod) =
      { name := ("b" : String).trim, fromTime := 0, toTime := 0, duration := 0,
        up := some 1, down := some 1, total := some 2 } :=
  c9_aggregation_deterministic none none ⟨0, 0, 0⟩ (fun _ _ => some 1)
    ⟨"a", "b", "k", []⟩ _ _ (by
      simp [runMembers, List.filterMap, processMember, getBandwidthSums,
        getBandwidthSumsCore]
      norm_num)

/-- C2: for every member, a `BandwidthUsagePeriod` is inserted exactly once
iff the member is active (at least one directional count present): both
absent → no insert; both present and zero → insert with `Total = some 0`;
one present, one absent → insert with `Total` equal to the present one and
the absent one stored absent; and over a whole roster the number of
inserts equals the number of active members. -/
theorem c2_persist_iff_active (w : TimeWindow) (fetch : String → String → Option ℚ)
    (m : MeshMember) :
    (processMember w fetch m = none ↔
      fetch "down" m.wgKey = none ∧ fetch "up" m.wgKey = none)
    ∧ (fetch "down" m.wgKey = some 0 → fetch "up" m.wgKey = some 0 →
        processMember w fetch m =
          some ⟨m.name.trim, w.fromTime, w.toTime, w.duration, some 0, some 0, some 0⟩)
    ∧ (∀ a : ℚ, fetch "down" m.wgKey = none → fetch "up" m.wgKey = some a →
        processMember w fetch m =
          some ⟨m.name.trim, w.fromTime, w.toTime, w.duration, some a, none, some a⟩)
    ∧ (∀ a : ℚ, fetch "down" m.wgKey = some a → fetch "up" m.wgKey = none →
        processMember w fetch m =
          some ⟨m.name.trim, w.fromTime, w.toTime, w.duration, none, some a, some a⟩)
    ∧ (∀ members : List MeshMember,
        (runMembers w fetch members).length =
          (members.filter (fun x => memberActive fetch x)).length) := by
  refine ⟨?_, ?_, ?_, ?_, ?_⟩
  · cases hd : fetch "down" m.wgKey <;> cases hu : fetch "up" m.wgKey <;>
      simp [processMember, getBandwidthSums, getBandwidthSumsCore, hd, hu]
  · intro hd hu
    simp [processMember, getBandwidthSums, getBandwidthSumsCore, hd, hu]
  · intro a hd hu
    simp [processMember, getBandwidthSums, getBandwidthSumsCore, hd, hu]
  · intro a hd hu
    simp [processMember, getBandwidthSums, getBandwidthSumsCore, hd, hu]
  · intro members
    induction members with
    | nil => rfl
    | cons x xs ih =>
      have hx := processMember_isSome w fetch x
      simp only [runMembers, List.filterMap_cons, List.filter_cons] at ih ⊢
      cases hp : processMember w fetch x with
      | none =>
        rw [hp] at hx
        simp only [Option.isSome_none] at hx
        rw [← hx]
        simpa using ih
      | some r =>
        rw [hp] at hx
        simp only [Option.isSome_some] at hx
        rw [← hx]
        simpa using ih

theorem c2_persist_iff_active_witness :
    processMember ⟨1, 2, 3⟩ (fun _ _ => some 0) ⟨"i", " n ", "k", []⟩ =
      some ⟨(" n " : String).trim, 1, 2, 3, some 0, some 0, some 0⟩ :=
  (c2_persist_iff_active ⟨1, 2, 3⟩ (fun _ _ => some 0) ⟨"i", " n ", "k", []⟩).2.1 rfl rfl

/-- C5: for every parseable duration `d` and end time `t`, the window
calculator yields `From = t - d` and `To = t`; with an end-date argument,
`To` is midnight (00:00:00 UTC) of that calendar date — in particular
duration "24h" with end-date "2024-01-02" gives `To` = 2024-01-02T00:00:00
and `From` = 2024-01-01T00:00:00 (values in nanoseconds since the epoch). -/
theorem c5_window_calculator :
    (∀ (durStr : String) (d now : Int), goParseDuration durStr = some d →
        mainEntry now ["stat-collector", durStr] = .run ⟨now - d, now, d⟩)
    ∧ (∀ (durStr dateStr : String) (d e now : Int),
        goParseDuration durStr = some d → parseEndDate dateStr = some e →
        mainEntry now ["stat-collector", durStr, dateStr] = .run ⟨e - d, e, d⟩)
    ∧ parseEndDate "2024-01-02" = some 1704153600000000000
    ∧ mainEntry 0 ["stat-collector", "24h", "2024-01-02"] =
        MainOutcome.run ⟨1704067200000000000, 1704153600000000000, 86400000000000⟩ := by
  refine ⟨?_, ?_, by decide, by decide⟩
  · intro durStr d now h
    simp [mainEntry, h]
  · intro durStr dateStr d e now h h2
    simp [mainEntry, h, h2]

theorem c5_window_calculator_witness :
    mainEntry 7 ["stat-collector", "24h"] =
      MainOutcome.run ⟨7 - 86400000000000, 7, 86400000000000⟩ :=
  c5_window_calculator.1 "24h" 86400000000000 7 (by decide)

/-- C10: invoked with fewer than two `os.Args` entries (no command-line
argument at all), `main` accesses `os.Args[1]` unconditionally and
panics with an index-out-of-range instead of printing the usage message;
the usage-error exit is reached only when at least one argument is
present. -/
theorem c10_missing_args_panics :
    (∀ (now : Int) (args : List String), args.length < 2 →
        mainEntry now args = MainOutcome.panicOOB)
    ∧ (∀ (now : Int) (args : List String),
        mainEntry now args = MainOutcome.usageExit → 2 ≤ args.length) := by
  constructor
  · intro now args h
    match args with
    | [] => rfl
    | [a] => rfl
    | a :: b :: rest =>
      simp only [List.length_cons] at h
      omega
  · intro now args h
    match args with
    | [] => simp [mainEntry] at h
    | [a] => simp [mainEntry] at h
    | a :: b :: rest => simp [List.length_cons]

theorem c10_missing_args_panics_witness :
    mainEntry 0 ["stat-collector"] = MainOutcome.panicOOB ∧
    2 ≤ (["stat-collector", "garbage"] : List String).length :=
  ⟨c10_missing_args_panics.1 0 ["stat-collector"] (by decide),
   c10_missing_args_panics.2 0 ["stat-collector", "garbage"] (by decide)⟩

/-- C6 (amended): every `TimeWindow` the run constructs satisfies
`To = From + Duration`, is created once from the CLI input, and every
record built in the per-member loop carries that same unchanged window;
but `Duration > 0` is NOT guaranteed — any parseable duration, including
zero ("0s") or a negative one, is accepted unchecked. -/
theorem c6_window_invariant_amended (now : Int) (args : List String) (w : TimeWindow)
    (h : mainEntry now args = MainOutcome.run w) :
    w.toTime = w.fromTime + w.duration ∧
    ∀ (fetch : String → String → Option ℚ) (members : List MeshMember)
      (r : BandwidthUsagePeriod), r ∈ runMembers w fetch members →
      r.fromTime = w.fromTime ∧ r.toTime = w.toTime ∧ r.duration = w.duration := by
  constructor
  · rcases args with _ | ⟨a0, args⟩
    · simp [mainEntry] at h
    rcases args with _ | ⟨a1, args⟩
    · simp [mainEntry] at h
    rcases args with _ | ⟨a2, args⟩
    · simp only [mainEntry] at h
      split at h
      · simp at h
      · injection h with h
        subst h
        simp
    · simp only [mainEntry] at h
      split at h
      · simp at h
      · injection h with h
        subst h
        simp
  · intro fetch members r hr
    rw [runMembers, List.mem_filterMap] at hr
    obtain ⟨m, _, hm⟩ := hr
    exact processMember_window w fetch m r hm

theorem c6_window_invariant_amended_witness :
    (⟨5, 5, 0⟩ : TimeWindow).toTime =
      (⟨5, 5, 0⟩ : TimeWindow).fromTime + (⟨5, 5, 0⟩ : TimeWindow).duration :=
  (c6_window_invariant_amended 5 ["stat-collector", "0s"] ⟨5, 5, 0⟩ (by decide)).1

/-- C6 (counterexample): the duration string "0s" parses successfully, so
the run constructs and uses the window `⟨5, 5, 0⟩` whose `Duration` is
zero — the claimed invariant `Duration > 0` fails on it. -/
theorem c6_counterexample_zero_duration :
    mainEntry 5 ["stat-collector", "0s"] = MainOutcome.run ⟨5, 5, 0⟩ ∧
    decide ((0 : Int) < (⟨5, 5, 0⟩ : TimeWindow).duration) = false :=
  ⟨by decide, rfl⟩

/-- C1 (code bug): with the unparseable duration "garbage" AND the valid
end-date "2024-01-02", `main` does NOT exit with the usage message: the
assignment `to, err = time.Parse(...)` at main.go line 193 overwrites the
`time.ParseDuration` error of line 187, so the run proceeds to the
network phase with the zero duration and the degenerate window
`[to, to]`. -/
theorem c1_duration_error_swallowed :
    goParseDuration "garbage" = none ∧
    parseEndDate "2024-01-02" = some 1704153600000000000 ∧
    mainEntry 0 ["stat-collector", "garbage", "2024-01-02"] =
      MainOutcome.run ⟨1704153600000000000, 1704153600000000000, 0⟩ ∧
    decide (mainEntry 0 ["stat-collector", "garbage", "2024-01-02"] =
      MainOutcome.usageExit) = false :=
  ⟨by decide, by decide, by decide, by decide⟩

/-- C4 (counterexample): a log-service response whose body is unparseable
JSON is NOT fatal: `callGraylog` only prints the Unmarshal error and
returns `nil`, so the fetch degrades to Absent and the run continues —
refuting the claim that every malformed response aborts the run. -/
theorem c4_counterexample_malformed_json_not_fatal :
    callGraylogRespond (GraylogOutcome.body none) = FetchStep.value none ∧
    decide (callGraylogRespond (GraylogOutcome.body none) = FetchStep.fatal) = false :=
  ⟨rfl, rfl⟩

/-- C4 (amended): a transport-level failure of the log-service call is
fatal and aborts the run, but an unparseable JSON body is degraded: the
error is printed and the member's directional count becomes Absent
(`nil`), while a decoded body yields its (possibly absent) sum converted
to GB. -/
theorem c4_fetch_error_handling_amended :
    callGraylogRespond GraylogOutcome.transportError = FetchStep.fatal ∧
    ∀ decoded : Option (Option ℚ),
      callGraylogRespond (GraylogOutcome.body decoded) =
        FetchStep.value ((decoded.getD none).map bytesToGb) := by
  refine ⟨rfl, fun decoded => ?_⟩
  cases decoded with
  | none => rfl
  | some sum => cases sum <;> rfl
